import Mathlib

/-!
Verification development for the `node-calrec-cscp` repository: a TCP client
for the Calrec CSCP broadcast-console protocol.

The TypeScript sources are embedded shallowly:
* `Buffer` values become `List Nat` whose entries are byte values (Node
  truncates every written value with `& 0xff`, which the constructors below
  reproduce where the source relies on it);
* fallible parsing returns an explicit result type;
* the stateful client (request map, scheduler, connection state) becomes
  explicit state-passing functions mirroring the corresponding methods of
  `CalrecClient` in `src/client.ts`.
-/

namespace Cscp

/-! ## Protocol constants (`src/protocol.ts`) -/

def SOH : Nat := 0xf1
def DEVICE_ID_CONTROLLER : Nat := 255
def DEVICE_ID_CALREC : Nat := 0
def ACK : Nat := 0x04
def NAK : Nat := 0x05

/-- `Buffer.readUInt16BE(offset)`: big-endian 16-bit read. -/
def readUInt16BE (b : List Nat) (i : Nat) : Nat :=
  b.getD i 0 * 256 + b.getD (i + 1) 0

/-- Big-endian 2-byte encoding of a u16 (`writeUInt16BE`). -/
def u16be (n : Nat) : List Nat :=
  [n / 256 % 256, n % 256]

/-- `calculateChecksum` from `src/protocol.ts`: fold `(sum + byte) & 0xff`
over the bytes, then take the two's complement `(~sum + 1) & 0xff`, which for
`sum ∈ [0, 255]` equals `(256 - sum) % 256`. -/
def calculateChecksum (buffer : List Nat) : Nat :=
  let sum := buffer.foldl (fun s b => (s + b) % 256) 0
  (256 - sum) % 256

/-- The `CMD` bytes of a command word: `[(command >> 8) & 0xff, command & 0xff]`. -/
def cmdBytes (command : Nat) : List Nat :=
  [command / 256 % 256, command % 256]

/-- `buildPacket` from `src/protocol.ts`.  The header is
`[SOH, byteCount, DEVICE_ID_CALREC]`; `Buffer.from` truncates the byte count
with `& 0xff`. -/
def buildPacket (command : Nat) (data : List Nat) : List Nat :=
  let byteCount := (2 + data.length) % 256
  let cmdAndData := cmdBytes command ++ data
  let checksum := calculateChecksum cmdAndData
  [SOH, byteCount, DEVICE_ID_CALREC] ++ cmdAndData ++ [checksum]

inductive ParseErr where
  | tooShort
  | byteCountMismatch
  | wrongDevice
  | checksumError
  deriving DecidableEq, Repr

inductive ParseResult where
  | err (e : ParseErr)
  | ok (command : Nat) (data : List Nat)
  deriving DecidableEq, Repr

/-- `parsePacket` from `src/protocol.ts` (input is the frame without its SOH
byte).  `byteCount` is `buffer[0]`, `device` is `buffer[1]`, the received
checksum is `buffer[buffer.length - 1]`, and `buffer.slice(2, -1)` is
`drop 2` followed by `dropLast`. -/
def parsePacket (buffer : List Nat) : ParseResult :=
  if buffer.length < 5 then .err .tooShort
  else if buffer.length ≠ buffer.getD 0 0 + 3 then .err .byteCountMismatch
  else if buffer.getD 1 0 ≠ DEVICE_ID_CONTROLLER then .err .wrongDevice
  else if buffer.getD (buffer.length - 1) 0 ≠
      calculateChecksum ((buffer.drop 2).dropLast) then .err .checksumError
  else .ok (readUInt16BE ((buffer.drop 2).dropLast) 0)
      (((buffer.drop 2).dropLast).drop 2)

/-- Replace the device-id byte (offset 1 of a SOH-stripped frame) with the
"addressed to controller" id, leaving everything else unchanged. -/
def withControllerDevice (buffer : List Nat) : List Nat :=
  match buffer with
  | bc :: _ :: rest => bc :: DEVICE_ID_CONTROLLER :: rest
  | l => l

/-! ## Checksum and framing lemmas -/

theorem foldl_add_mod (l : List Nat) : ∀ s, s < 256 →
    l.foldl (fun a b => (a + b) % 256) s = (s + l.sum) % 256 := by
  induction l with
  | nil => intro s hs; simp [Nat.mod_eq_of_lt hs]
  | cons b t ih =>
    intro s hs
    simp only [List.foldl_cons, List.sum_cons]
    rw [ih ((s + b) % 256) (Nat.mod_lt _ (by omega))]
    omega

theorem calculateChecksum_eq (l : List Nat) :
    calculateChecksum l = (256 - l.sum % 256) % 256 := by
  simp only [calculateChecksum]
  rw [foldl_add_mod l 0 (by omega)]
  omega

theorem sum_add_checksum (l : List Nat) :
    (l.sum + calculateChecksum l) % 256 = 0 := by
  rw [calculateChecksum_eq]
  omega

/-- **C9.** Checksum closure: `buildPacket` appends
`calculateChecksum(command bytes ++ payload)` as its final byte — the two's
complement of the byte sum mod 256 — so the sum of the command bytes, the
payload bytes and the checksum byte is `0` mod 256. -/
theorem c9_checksum_closure (command : Nat) (data : List Nat) :
    (buildPacket command data).getLast? =
      some (calculateChecksum (cmdBytes command ++ data)) ∧
    ((cmdBytes command ++ data).sum +
      calculateChecksum (cmdBytes command ++ data)) % 256 = 0 := by
  refine ⟨?_, sum_add_checksum _⟩
  simp only [buildPacket]
  exact List.getLast?_concat _

/-- **C1 (counterexample).** The round-trip claim fails at command `8`
(READ_CONSOLE_INFO) with the empty payload: `buildPacket` stamps the
console-bound device id `0`, while `parsePacket` only accepts frames
addressed to the controller (device id `255`), so parsing the built packet
(SOH stripped) yields a wrong-device error, not `{command, data}`. -/
theorem c1_roundtrip_counterexample :
    parsePacket ((buildPacket 8 []).drop 1) = .err .wrongDevice ∧
    parsePacket ((buildPacket 8 []).drop 1) ≠ .ok 8 [] := by
  constructor <;> decide

/-- **C1 (amended).** For every u16 command and payload of at most 253 bytes,
parsing the built packet with its SOH stripped fails with the wrong-device
error (buildPacket writes device id 0, parsePacket requires 255); after
replacing the device byte with the controller id 255, parsing succeeds and
returns exactly the command and the payload. -/
theorem c1_roundtrip_amended (command : Nat) (data : List Nat)
    (hcmd : command < 65536) (hlen : data.length ≤ 253) :
    parsePacket ((buildPacket command data).drop 1) = .err .wrongDevice ∧
    parsePacket (withControllerDevice ((buildPacket command data).drop 1)) =
      .ok command data := by
  have hbc : (2 + data.length) % 256 = 2 + data.length :=
    Nat.mod_eq_of_lt (by omega)
  have hdrop : (buildPacket command data).drop 1 =
      [2 + data.length, DEVICE_ID_CALREC, command / 256 % 256, command % 256] ++
        (data ++ [calculateChecksum (cmdBytes command ++ data)]) := by
    simp [buildPacket, cmdBytes, hbc]
  have hfix : withControllerDevice ((buildPacket command data).drop 1) =
      [2 + data.length, DEVICE_ID_CONTROLLER, command / 256 % 256, command % 256] ++
        (data ++ [calculateChecksum (cmdBytes command ++ data)]) := by
    rw [hdrop]; rfl
  have hlength : ∀ dev : Nat,
      ([2 + data.length, dev, command / 256 % 256, command % 256] ++
        (data ++ [calculateChecksum (cmdBytes command ++ data)])).length =
        data.length + 5 := by
    intro dev; simp [List.length_append]; try omega
  constructor
  · rw [hdrop]
    rw [parsePacket]
    rw [if_neg (by rw [hlength]; omega)]
    rw [if_neg (by rw [hlength]; simp [List.getD]; try omega)]
    rw [if_pos (by simp [List.getD, DEVICE_ID_CALREC, DEVICE_ID_CONTROLLER])]
  · rw [hfix]
    rw [parsePacket]
    rw [if_neg (by rw [hlength]; omega)]
    rw [if_neg (by rw [hlength]; simp [List.getD]; try omega)]
    rw [if_neg (by simp [List.getD, DEVICE_ID_CONTROLLER])]
    have hgetcs :
        ([2 + data.length, DEVICE_ID_CONTROLLER, command / 256 % 256,
            command % 256] ++
          (data ++ [calculateChecksum (cmdBytes command ++ data)])).getD
          (([2 + data.length, DEVICE_ID_CONTROLLER, command / 256 % 256,
              command % 256] ++
            (data ++ [calculateChecksum (cmdBytes command ++ data)])).length - 1)
          0 = calculateChecksum (cmdBytes command ++ data) := by
      rw [hlength]
      rw [List.getD_append_right _ _ _ _ (by simp; try omega)]
      rw [show data.length + 5 - 1 -
        ([2 + data.length, DEVICE_ID_CONTROLLER, command / 256 % 256,
          command % 256] : List Nat).length = data.length by simp; try omega]
      rw [List.getD_append_right _ _ _ _ (by omega)]
      simp
    have hcmddata :
        ((([2 + data.length, DEVICE_ID_CONTROLLER, command / 256 % 256,
            command % 256] ++
          (data ++ [calculateChecksum (cmdBytes command ++ data)])).drop
            2).dropLast) = cmdBytes command ++ data := by
      show ((command / 256 % 256 :: command % 256 ::
        (data ++ [calculateChecksum (cmdBytes command ++ data)])).dropLast) = _
      rw [show command / 256 % 256 :: command % 256 ::
          (data ++ [calculateChecksum (cmdBytes command ++ data)]) =
          (command / 256 % 256 :: command % 256 :: data) ++
            [calculateChecksum (cmdBytes command ++ data)] by simp]
      rw [List.dropLast_concat]
      rfl
    rw [if_neg (by rw [hgetcs, hcmddata]; simp)]
    rw [hcmddata]
    have hread : readUInt16BE (cmdBytes command ++ data) 0 = command := by
      have h1 : (cmdBytes command ++ data).getD 0 0 = command / 256 % 256 := rfl
      have h2 : (cmdBytes command ++ data).getD 1 0 = command % 256 := rfl
      rw [readUInt16BE, h1, h2]
      omega
    rw [hread]
    rfl

/-- Witness for `c1_roundtrip_amended` at command `8`, payload `[0, 1]`. -/
theorem c1_roundtrip_amended_witness :
    (8 < 65536 ∧ ([0, 1] : List Nat).length ≤ 253) ∧
    (parsePacket ((buildPacket 8 [0, 1]).drop 1) = .err .wrongDevice ∧
      parsePacket (withControllerDevice ((buildPacket 8 [0, 1]).drop 1)) =
        .ok 8 [0, 1]) :=
  ⟨by decide, c1_roundtrip_amended 8 [0, 1] (by decide) (by decide)⟩

/-! ## Level converters (`src/converters.ts`)

JavaScript numbers are modelled as `ℚ`; the endpoint computations below only
involve small integers and exact ratios, where IEEE double arithmetic is
exact. -/

/-- A conversion point `[protocol_value, dB_value]`, indexed like the
source's 2-element tuple. -/
def coord (p : ℚ × ℚ) (i : Fin 2) : ℚ :=
  if i = 0 then p.1 else p.2

/-- `Math.round`: round half toward positive infinity. -/
def jsRound (q : ℚ) : ℚ :=
  (⌊q + 1 / 2⌋ : ℤ)

/-- `MAIN_FADER_MAP` from `src/converters.ts`. -/
def MAIN_FADER_MAP : List (ℚ × ℚ) :=
  [(0, -100), (40, -100), (80, -70), (162, -50),
   (519, -20), (760, -10), (1004, 0), (1023, 0)]

/-- `CHANNEL_FADER_MAP` from `src/converters.ts`. -/
def CHANNEL_FADER_MAP : List (ℚ × ℚ) :=
  [(0, -100), (40, -100), (80, -60), (162, -40),
   (519, -20), (760, 0), (1004, 10), (1023, 10)]

/-- The scan loop of `interpolate`: the first adjacent pair `(map[i],
map[i+1])` with `map[i][fromIndex] ≤ value ≤ map[i+1][fromIndex]`. -/
def findBracket (value : ℚ) (iFrom : Fin 2) :
    List (ℚ × ℚ) → Option ((ℚ × ℚ) × (ℚ × ℚ))
  | p :: q :: rest =>
    if coord p iFrom ≤ value ∧ value ≤ coord q iFrom then some (p, q)
    else findBracket value iFrom (q :: rest)
  | _ => none

/-- `interpolate` from `src/converters.ts`: when no bracketing pair is found
the defaults are `map[0]` and `map[map.length - 1]`; out-of-range values
clamp; a degenerate bracket returns `p1[toIndex]`; level outputs
(`toIndex = 0`) are rounded with `Math.round`. -/
def interpolate (value : ℚ) (map : List (ℚ × ℚ)) (iFrom iTo : Fin 2) : ℚ :=
  let pq := (findBracket value iFrom map).getD (map.headD (0, 0), map.getLastD (0, 0))
  let p1 := pq.1
  let p2 := pq.2
  if value < coord p1 iFrom then coord p1 iTo
  else if coord p2 iFrom < value then coord p2 iTo
  else
    let fromRange := coord p2 iFrom - coord p1 iFrom
    if fromRange = 0 then coord p1 iTo
    else
      let ratio := (value - coord p1 iFrom) / fromRange
      let result := coord p1 iTo + ratio * (coord p2 iTo - coord p1 iTo)
      if iTo = 0 then jsRound result else result

/-- `mainLevelToDb` from `src/converters.ts`. -/
def mainLevelToDb (level : ℚ) : ℚ := interpolate level MAIN_FADER_MAP 0 1

/-- `dbToMainLevel` from `src/converters.ts`. -/
def dbToMainLevel (db : ℚ) : ℚ := interpolate db MAIN_FADER_MAP 1 0

/-- `channelLevelToDb` from `src/converters.ts`. -/
def channelLevelToDb (level : ℚ) : ℚ := interpolate level CHANNEL_FADER_MAP 0 1

/-- `dbToChannelLevel` from `src/converters.ts`. -/
def dbToChannelLevel (db : ℚ) : ℚ := interpolate db CHANNEL_FADER_MAP 1 0

/-- **C3 (counterexample).** `dbToChannelLevel(10)` is `1004`, not the
claimed `1023`: the scan finds the bracket `[760, 0] .. [1004, 10]` first
(at `i = 5`), so `+10 dB` interpolates to level `1004`; the repository's own
test suite asserts `dbToChannelLevel(10) = 1004` ("updated to match actual
behavior"). -/
theorem c3_endpoints_counterexample :
    dbToChannelLevel 10 = 1004 ∧ dbToChannelLevel 10 ≠ 1023 := by
  constructor <;>
    norm_num [dbToChannelLevel, interpolate, findBracket, coord,
      CHANNEL_FADER_MAP, jsRound]

/-- **C3 (amended).** LevelConverter endpoint values as the code computes
them: `dbToChannelLevel(-100) = 0`, `dbToChannelLevel(10) = 1004` (not
`1023`), `channelLevelToDb(0) = -100`, `channelLevelToDb(1023) = 10`,
`dbToMainLevel(-100) = 0`, and `mainLevelToDb(1023) = 0`, each by the
piecewise-linear interpolation over its fixed anchor table. -/
theorem c3_endpoints_amended :
    dbToChannelLevel (-100) = 0 ∧ dbToChannelLevel 10 = 1004 ∧
    channelLevelToDb 0 = -100 ∧ channelLevelToDb 1023 = 10 ∧
    dbToMainLevel (-100) = 0 ∧ mainLevelToDb 1023 = 0 := by
  refine ⟨?_, ?_, ?_, ?_, ?_, ?_⟩ <;>
    norm_num [dbToChannelLevel, channelLevelToDb, dbToMainLevel,
      mainLevelToDb, interpolate, findBracket, coord,
      CHANNEL_FADER_MAP, MAIN_FADER_MAP, jsRound]

/-! ## Command codes (`COMMANDS` in `src/protocol.ts`) -/

def READ_FADER_LEVEL : Nat := 0x0000
def READ_FADER_CUT : Nat := 0x0001
def READ_MAIN_FADER_LEVEL : Nat := 0x0002
def READ_FADER_PFL : Nat := 0x0005
def READ_CONSOLE_NAME : Nat := 0x0007
def READ_CONSOLE_INFO : Nat := 0x0008
def READ_FADER_LABEL : Nat := 0x000b
def READ_MAIN_PFL : Nat := 0x000c
def READ_MAIN_FADER_LABEL : Nat := 0x000d
def READ_AVAILABLE_AUX : Nat := 0x0010
def READ_FADER_ASSIGNMENT : Nat := 0x0011
def READ_AUX_SEND_ROUTING : Nat := 0x0012
def READ_AUX_OUTPUT_LEVEL : Nat := 0x0013
def READ_AVAILABLE_MAINS : Nat := 0x0014
def READ_ROUTE_TO_MAIN : Nat := 0x0015
def READ_STEREO_IMAGE : Nat := 0x0016
def WRITE_FADER_LEVEL : Nat := 0x8000
def WRITE_FADER_CUT : Nat := 0x8001
def WRITE_MAIN_FADER_LEVEL : Nat := 0x8002
def WRITE_FADER_PFL : Nat := 0x8005
def WRITE_MAIN_PFL : Nat := 0x800c
def WRITE_AUX_SEND_ROUTING : Nat := 0x8012
def WRITE_AUX_OUTPUT_LEVEL : Nat := 0x8013
def WRITE_ROUTE_TO_MAIN : Nat := 0x8015
def WRITE_STEREO_IMAGE : Nat := 0x8016

/-- The read command codes of `COMMANDS` (MSB clear). -/
def clientReadCommands : List Nat :=
  [READ_FADER_LEVEL, READ_FADER_CUT, READ_MAIN_FADER_LEVEL, READ_FADER_PFL,
   READ_CONSOLE_NAME, READ_CONSOLE_INFO, READ_FADER_LABEL, READ_MAIN_PFL,
   READ_MAIN_FADER_LABEL, READ_AVAILABLE_AUX, READ_FADER_ASSIGNMENT,
   READ_AUX_SEND_ROUTING, READ_AUX_OUTPUT_LEVEL, READ_AVAILABLE_MAINS,
   READ_ROUTE_TO_MAIN, READ_STEREO_IMAGE]

/-! ## Request correlation (`src/client.ts`) -/

/-- A request-map key.  The source uses the strings `"${cmd}"` and
`"${cmd}:${id}"`; since decimal renderings are unambiguous, the two string
shapes are modelled as two constructors. -/
inductive Key where
  | cmdOnly (cmd : Nat)
  | cmdId (cmd : Nat) (id : Nat)
  deriving DecidableEq, Repr

/-- Key registered by `sendCommand` for a read command (`src/client.ts`,
lines 923–931): the command alone unless the request payload has at least
two bytes, in which case the big-endian u16 at offset 0 is appended. -/
def mkSendKey (command : Nat) (data : List Nat) : Key :=
  if 2 ≤ data.length then .cmdId command (readUInt16BE data 0)
  else .cmdOnly command

/-- The `nonIdSpecificCommands` array of `processIncomingMessage`
(`src/client.ts`, lines 395–401). -/
def nonIdSpecificCommands : List Nat :=
  [READ_CONSOLE_INFO, READ_CONSOLE_NAME, READ_AVAILABLE_AUX,
   READ_AVAILABLE_MAINS, READ_STEREO_IMAGE]

/-- Key derived from an inbound frame by `processIncomingMessage`:
`readCmd = command & 0x7fff` (commands are u16, so this is `% 0x8000`), with
the reply's leading u16 appended iff the command is id-specific and the
payload has at least two bytes. -/
def mkReplyKey (command : Nat) (data : List Nat) : Key :=
  let readCmd := command % 32768
  if readCmd ∉ nonIdSpecificCommands ∧ 2 ≤ data.length then
    .cmdId readCmd (readUInt16BE data 0)
  else .cmdOnly readCmd

/-- The `requestMap`: a JS `Map` in insertion order, holding one pending
caller (identified by an opaque number) per key. -/
abbrev RequestMap := List (Key × Nat)

/-- `Map.get`. -/
def mapGet (m : RequestMap) (k : Key) : Option Nat :=
  match m with
  | [] => none
  | (k', v) :: t => if k' = k then some v else mapGet t k

/-- `Map.set`: replaces an existing entry for the key, else appends. -/
def mapSet (m : RequestMap) (k : Key) (v : Nat) : RequestMap :=
  match m with
  | [] => [(k, v)]
  | (k', v') :: t => if k' = k then (k, v) :: t else (k', v') :: mapSet t k v

/-- `Map.delete`. -/
def mapDelete (m : RequestMap) (k : Key) : RequestMap :=
  match m with
  | [] => []
  | (k', v') :: t => if k' = k then t else (k', v') :: mapDelete t k

/-- Number of entries stored under a key. -/
def countKey (m : RequestMap) (k : Key) : Nat :=
  match m with
  | [] => 0
  | (k', _) :: t => (if k' = k then 1 else 0) + countKey t k

/-- The JS `Map` invariant: all keys distinct. -/
abbrev keysNodup (m : RequestMap) : Prop :=
  (m.map Prod.fst).Nodup

/-- Effect of `sendCommand` on the request map: for a read command
(`(command & 0x8000) === 0`; commands are u16) one entry is stored under
`mkSendKey`; write commands register nothing. -/
def sendRegister (m : RequestMap) (command : Nat) (data : List Nat)
    (p : Nat) : RequestMap :=
  if command % 65536 < 32768 then mapSet m (mkSendKey command data) p else m

inductive IncomingAction where
  | resolved (p : Nat)
  | unsolicitedEvent
  deriving DecidableEq, Repr

/-- `processIncomingMessage`: derive the reply key; a pending entry under it
is removed and its caller resolved; otherwise the frame is dispatched as an
unsolicited event. -/
def processIncoming (m : RequestMap) (command : Nat) (data : List Nat) :
    RequestMap × IncomingAction :=
  match mapGet m (mkReplyKey command data) with
  | some p => (mapDelete m (mkReplyKey command data), .resolved p)
  | none => (m, .unsolicitedEvent)

/-- `handleCommandTimeout` inside `sendCommand`: when the response timer
fires, a still-pending entry is removed and its caller rejected with the
timeout error (flag `true`); otherwise nothing happens. -/
def fireTimeout (m : RequestMap) (k : Key) : RequestMap × Bool :=
  match mapGet m k with
  | some _ => (mapDelete m k, true)
  | none => (m, false)

/-! ## Connection state and disconnect (`src/client.ts`) -/

inductive ConnectionState where
  | disconnected | connecting | connected | reconnecting | error
  deriving DecidableEq, Repr

/-- `ConsoleInfo` from `src/types.ts`. -/
structure ConsoleInfoR where
  protocolVersion : Nat
  maxFaders : Nat
  maxMains : Nat
  deskLabel : String
  deriving DecidableEq, Repr

/-- The mutable fields of `CalrecClient` read or written by
`disconnect`/`handleDisconnect`, plus the request map. -/
structure ClientModel where
  connectionState : ConnectionState
  consoleInfo : Option ConsoleInfoR
  consoleName : Option String
  autoReconnect : Bool
  reconnectTimerSet : Bool
  socketOpen : Bool
  requestMap : RequestMap
  deriving DecidableEq, Repr

inductive ClientEvent where
  | connectionStateChange (s : ConnectionState)
  | disconnectEvent
  | requestRejected (k : Key)
  deriving DecidableEq, Repr

/-- Whether an event rejects a pending request. -/
def isRejection (e : ClientEvent) : Bool :=
  match e with
  | .requestRejected _ => true
  | _ => false

/-- `handleDisconnect` (`src/client.ts`, lines 238–258): destroy the socket,
emit `disconnect`, move to `DISCONNECTED` (clearing cached console info and
name) unless already there, and if auto-reconnect is enabled move to
`RECONNECTING` and arm the reconnect timer.  The request map is not
touched and no pending caller is rejected. -/
def handleDisconnect (s : ClientModel) : ClientModel × List ClientEvent :=
  let s1 : ClientModel := { s with socketOpen := false }
  let step2 :=
    if s1.connectionState ≠ .disconnected then
      ({ s1 with
          connectionState := .disconnected
          consoleInfo := none
          consoleName := none },
       [ClientEvent.connectionStateChange .disconnected])
    else (s1, ([] : List ClientEvent))
  let s2 := step2.1
  if s2.autoReconnect then
    ({ s2 with connectionState := .reconnecting, reconnectTimerSet := true },
     ClientEvent.disconnectEvent :: step2.2 ++
       [ClientEvent.connectionStateChange .reconnecting])
  else (s2, ClientEvent.disconnectEvent :: step2.2)

/-- `disconnect` (`src/client.ts`, lines 264–271): disable auto-reconnect,
cancel a pending reconnect timer, then run `handleDisconnect`. -/
def disconnect (s : ClientModel) : ClientModel × List ClientEvent :=
  handleDisconnect { s with autoReconnect := false, reconnectTimerSet := false }

/-! ## Request-map lemmas -/

theorem mapGet_mapSet_self (m : RequestMap) (k : Key) (v : Nat) :
    mapGet (mapSet m k v) k = some v := by
  induction m with
  | nil => simp [mapSet, mapGet]
  | cons e t ih =>
    obtain ⟨k', v'⟩ := e
    by_cases h : k' = k <;> simp [mapSet, mapGet, h, ih]

theorem mapGet_eq_none_of_not_mem (m : RequestMap) (k : Key)
    (h : k ∉ m.map Prod.fst) : mapGet m k = none := by
  induction m with
  | nil => rfl
  | cons e t ih =>
    obtain ⟨k', v'⟩ := e
    simp only [List.map_cons, List.mem_cons] at h
    push_neg at h
    simp [mapGet, h.1.symm, ih h.2]

theorem countKey_eq_zero (m : RequestMap) (k : Key)
    (h : k ∉ m.map Prod.fst) : countKey m k = 0 := by
  induction m with
  | nil => rfl
  | cons e t ih =>
    obtain ⟨k', v'⟩ := e
    simp only [List.map_cons, List.mem_cons] at h
    push_neg at h
    simp [countKey, h.1.symm, ih h.2]

theorem countKey_mapSet_self (m : RequestMap) (k : Key) (v : Nat)
    (h : keysNodup m) : countKey (mapSet m k v) k = 1 := by
  induction m with
  | nil => simp [mapSet, countKey]
  | cons e t ih =>
    obtain ⟨k', v'⟩ := e
    rw [keysNodup, List.map_cons, List.nodup_cons] at h
    by_cases hk : k' = k
    · subst hk
      simp [mapSet, countKey, countKey_eq_zero t k' h.1]
    · simp [mapSet, countKey, hk, ih h.2]

theorem mapGet_mapDelete_self (m : RequestMap) (k : Key)
    (h : keysNodup m) : mapGet (mapDelete m k) k = none := by
  induction m with
  | nil => rfl
  | cons e t ih =>
    obtain ⟨k', v'⟩ := e
    rw [keysNodup, List.map_cons, List.nodup_cons] at h
    by_cases hk : k' = k
    · subst hk
      simp [mapDelete, mapGet_eq_none_of_not_mem t k' h.1]
    · simp [mapDelete, mapGet, hk, ih h.2]

/-- Concrete client state with one outstanding read request (fader level,
fader id 1, key `"0:1"`). -/
def c2state : ClientModel where
  connectionState := .connected
  consoleInfo := none
  consoleName := none
  autoReconnect := true
  reconnectTimerSet := false
  socketOpen := true
  requestMap := [(Key.cmdId READ_FADER_LEVEL 1, 7)]

/-- **C2 (counterexample).** `disconnect()` does not reject outstanding
pending requests: with one pending read-fader-level request in the map,
disconnecting leaves the request map unchanged (the entry is still pending)
and emits no rejection — the entry is left to its response timeout. -/
theorem c2_lifecycle_counterexample :
    (disconnect c2state).1.requestMap = [(Key.cmdId READ_FADER_LEVEL 1, 7)] ∧
    (disconnect c2state).2.all (fun e => !(isRejection e)) = true := by
  constructor <;> rfl

/-- **C2 (amended).** Pending-request lifecycle as the code implements it:
a read command (bit 15 clear) registers exactly one pending entry under its
key; an inbound reply matching the key removes the entry and resolves the
caller; the response timeout removes a still-pending entry and rejects the
caller with the timeout error; but `disconnect()` leaves the request map
untouched and rejects nothing — outstanding entries are left to their
individual timeouts. -/
theorem c2_lifecycle_amended (m : RequestMap) (command cmd : Nat)
    (data rdata : List Nat) (p q : Nat) (k : Key) (hm : keysNodup m) :
    (command % 65536 < 32768 →
      mapGet (sendRegister m command data p) (mkSendKey command data) =
        some p ∧
      countKey (sendRegister m command data p) (mkSendKey command data) = 1) ∧
    (mapGet m (mkReplyKey cmd rdata) = some q →
      processIncoming m cmd rdata =
        (mapDelete m (mkReplyKey cmd rdata), .resolved q) ∧
      mapGet (processIncoming m cmd rdata).1 (mkReplyKey cmd rdata) = none) ∧
    (mapGet m k = some q →
      fireTimeout m k = (mapDelete m k, true) ∧
      mapGet (fireTimeout m k).1 k = none) ∧
    (∀ s : ClientModel, (disconnect s).1.requestMap = s.requestMap ∧
      ∀ e ∈ (disconnect s).2, isRejection e = false) := by
  refine ⟨?_, ?_, ?_, ?_⟩
  · intro hread
    rw [sendRegister, if_pos hread]
    exact ⟨mapGet_mapSet_self m _ p, countKey_mapSet_self m _ p hm⟩
  · intro hq
    have h1 : processIncoming m cmd rdata =
        (mapDelete m (mkReplyKey cmd rdata), .resolved q) := by
      unfold processIncoming
      rw [hq]
    exact ⟨h1, by rw [h1]; exact mapGet_mapDelete_self m _ hm⟩
  · intro hq
    have h1 : fireTimeout m k = (mapDelete m k, true) := by
      unfold fireTimeout
      rw [hq]
    exact ⟨h1, by rw [h1]; exact mapGet_mapDelete_self m _ hm⟩
  · intro s
    constructor
    · simp only [disconnect, handleDisconnect]
      split_ifs <;> rfl
    · intro e
      simp only [disconnect, handleDisconnect]
      split_ifs <;> (intro he; fin_cases he <;> rfl)

/-- Concrete request map for the `c2_lifecycle_amended` witness. -/
def c2map : RequestMap := [(Key.cmdOnly READ_CONSOLE_NAME, 3)]

/-- Witness for `c2_lifecycle_amended` on `c2map`. -/
theorem c2_lifecycle_witness :
    keysNodup c2map ∧
    ((READ_FADER_LEVEL % 65536 < 32768 →
      mapGet (sendRegister c2map READ_FADER_LEVEL [0, 1] 5)
        (mkSendKey READ_FADER_LEVEL [0, 1]) = some 5 ∧
      countKey (sendRegister c2map READ_FADER_LEVEL [0, 1] 5)
        (mkSendKey READ_FADER_LEVEL [0, 1]) = 1) ∧
    (mapGet c2map (mkReplyKey READ_CONSOLE_NAME [77]) = some 3 →
      processIncoming c2map READ_CONSOLE_NAME [77] =
        (mapDelete c2map (mkReplyKey READ_CONSOLE_NAME [77]), .resolved 3) ∧
      mapGet (processIncoming c2map READ_CONSOLE_NAME [77]).1
        (mkReplyKey READ_CONSOLE_NAME [77]) = none) ∧
    (mapGet c2map (Key.cmdOnly READ_CONSOLE_NAME) = some 3 →
      fireTimeout c2map (Key.cmdOnly READ_CONSOLE_NAME) =
        (mapDelete c2map (Key.cmdOnly READ_CONSOLE_NAME), true) ∧
      mapGet (fireTimeout c2map (Key.cmdOnly READ_CONSOLE_NAME)).1
        (Key.cmdOnly READ_CONSOLE_NAME) = none) ∧
    (∀ s : ClientModel, (disconnect s).1.requestMap = s.requestMap ∧
      ∀ e ∈ (disconnect s).2, isRejection e = false)) :=
  ⟨by decide, c2_lifecycle_amended c2map READ_FADER_LEVEL READ_CONSOLE_NAME
    [0, 1] [77] 5 3 (Key.cmdOnly READ_CONSOLE_NAME) (by decide)⟩

/-! ## Correlation-key symmetry (C5) -/

theorem mkReplyKey_id_specific (c : Nat) (data : List Nat)
    (hc : c ∉ nonIdSpecificCommands) (hcsmall : c < 32768)
    (hlen : 2 ≤ data.length) :
    mkReplyKey c data = .cmdId c (readUInt16BE data 0) := by
  simp [mkReplyKey, Nat.mod_eq_of_lt hcsmall, hc, hlen]

theorem mkReplyKey_global (c : Nat) (data : List Nat)
    (hc : c ∈ nonIdSpecificCommands) (hcsmall : c < 32768) :
    mkReplyKey c data = .cmdOnly c := by
  simp [mkReplyKey, Nat.mod_eq_of_lt hcsmall, hc]

theorem mkSendKey_u16be (c id : Nat) (hid : id < 65536) :
    mkSendKey c (u16be id) = .cmdId c id := by
  have h : id / 256 % 256 * 256 + id % 256 = id := by omega
  simp [mkSendKey, u16be, readUInt16BE, List.getD, h]

theorem mkSendKey_nil (c : Nat) : mkSendKey c [] = .cmdOnly c := by
  simp [mkSendKey]

/-- **C5 (counterexample).** The reply-side command-alone set also contains
`READ_STEREO_IMAGE` (0x16), so the claimed four-element set is wrong, and
for `READ_STEREO_IMAGE` the key registered by `sendCommand` (`"22:1"` for
fader id 1) differs from the key derived from the well-formed reply
(`"22"`): the reply leaves the pending entry in place and is treated as an
unsolicited message. -/
theorem c5_correlation_counterexample :
    READ_STEREO_IMAGE ∈ nonIdSpecificCommands ∧
    mkSendKey READ_STEREO_IMAGE (u16be 1) ≠
      mkReplyKey READ_STEREO_IMAGE [0, 1, 0, 0] ∧
    processIncoming [(mkSendKey READ_STEREO_IMAGE (u16be 1), 9)]
        READ_STEREO_IMAGE [0, 1, 0, 0] =
      ([(mkSendKey READ_STEREO_IMAGE (u16be 1), 9)], .unsolicitedEvent) := by
  refine ⟨by decide, by decide, by decide⟩

/-- **C5 (amended).** The reply-side set of read commands keyed by command
alone is the four global commands *plus* `READ_STEREO_IMAGE`.  For every
read command other than `READ_STEREO_IMAGE` the registration key equals the
reply key (command-alone commands send empty payloads; id-specific replies
echo the entity id), so the reply resolves the pending call; for
`READ_STEREO_IMAGE` — whose request carries a fader id — the two keys
always differ, so its reply never resolves the pending call. -/
theorem c5_correlation_amended (c id : Nat) (data : List Nat)
    (hc : c ∈ clientReadCommands) (hid : id < 65536)
    (hlen : 2 ≤ data.length) (hdata : readUInt16BE data 0 = id) :
    (c ∉ nonIdSpecificCommands →
      mkReplyKey c data = mkSendKey c (u16be id)) ∧
    (c ∈ nonIdSpecificCommands ∧ c ≠ READ_STEREO_IMAGE →
      mkReplyKey c data = mkSendKey c ([] : List Nat)) ∧
    (c = READ_STEREO_IMAGE →
      mkReplyKey c data ≠ mkSendKey c (u16be id)) := by
  have hcsmall : c < 32768 := by fin_cases hc <;> decide
  refine ⟨fun h1 => ?_, fun h2 => ?_, fun h3 => ?_⟩
  · rw [mkReplyKey_id_specific c data h1 hcsmall hlen, hdata,
      mkSendKey_u16be c id hid]
  · rw [mkReplyKey_global c data h2.1 hcsmall, mkSendKey_nil]
  · subst h3
    rw [mkReplyKey_global _ data (by decide) hcsmall,
      mkSendKey_u16be _ id hid]
    simp

/-- Witness for `c5_correlation_amended` at `READ_FADER_LEVEL`, id 1. -/
theorem c5_correlation_witness :
    (READ_FADER_LEVEL ∈ clientReadCommands ∧ 1 < 65536 ∧
      2 ≤ ([0, 1, 9] : List Nat).length ∧ readUInt16BE [0, 1, 9] 0 = 1) ∧
    ((READ_FADER_LEVEL ∉ nonIdSpecificCommands →
      mkReplyKey READ_FADER_LEVEL [0, 1, 9] =
        mkSendKey READ_FADER_LEVEL (u16be 1)) ∧
    (READ_FADER_LEVEL ∈ nonIdSpecificCommands ∧
        READ_FADER_LEVEL ≠ READ_STEREO_IMAGE →
      mkReplyKey READ_FADER_LEVEL [0, 1, 9] =
        mkSendKey READ_FADER_LEVEL ([] : List Nat)) ∧
    (READ_FADER_LEVEL = READ_STEREO_IMAGE →
      mkReplyKey READ_FADER_LEVEL [0, 1, 9] ≠
        mkSendKey READ_FADER_LEVEL (u16be 1))) :=
  ⟨by decide, c5_correlation_amended READ_FADER_LEVEL 1 [0, 1, 9]
    (by decide) (by decide) (by decide) (by decide)⟩

/-! ## Command scheduler (`processCommandQueue`, `src/client.ts`,
lines 976–1073)

One invocation of `processCommandQueue` is modelled as a `tick` at a single
timestamp `t` (the invocation is synchronous, so it is not interleaved with
other engine code).  At most one packet is written per invocation: the
fader-level lane when it is non-empty and its cooldown has strictly elapsed,
otherwise the general lane; the global gate
`now - lastCommandSent < globalCommandRateMs` skips the invocation.  A send
updates `lastCommandSent` (and, for the fader lane, `lastFaderLevelSent`)
to the invocation time. -/

/-- A queued command: command code and payload. -/
abbrev QueuedCmd := Nat × List Nat

structure SchedState where
  commandQueue : List QueuedCmd
  faderLevelQueue : List QueuedCmd
  lastCommandSent : Nat
  lastFaderLevelSent : Nat
  globalCommandRateMs : Nat
  faderLevelRateMs : Nat
  deriving DecidableEq, Repr

/-- The `else if (this.commandQueue.length > 0)` branch: dequeue one general
command and update `lastCommandSent`. -/
def tickGeneral (s : SchedState) (t : Nat) :
    SchedState × Option (Bool × QueuedCmd) :=
  match s.commandQueue with
  | c :: rest =>
    ({ s with commandQueue := rest, lastCommandSent := t }, some (false, c))
  | [] => (s, none)

/-- One invocation of `processCommandQueue` at time `t`; the returned
component is the packet written (`true` = fader-level lane), if any. -/
def tick (s : SchedState) (t : Nat) : SchedState × Option (Bool × QueuedCmd) :=
  if t - s.lastCommandSent < s.globalCommandRateMs then (s, none)
  else if s.faderLevelRateMs < t - s.lastFaderLevelSent then
    match s.faderLevelQueue with
    | c :: rest =>
      ({ s with
          faderLevelQueue := rest
          lastFaderLevelSent := t
          lastCommandSent := t },
       some (true, c))
    | [] => tickGeneral s t
  else tickGeneral s t

/-- Run a sequence of scheduler invocations at the given times, collecting
the send instants and their lane. -/
def run (s : SchedState) : List Nat → List (Nat × Bool)
  | [] => []
  | t :: ts =>
    match tick s t with
    | (s', none) => run s' ts
    | (s', some (lane, _)) => (t, lane) :: run s' ts

/-- Consecutive sends (either lane) are at least `rate` apart, starting from
the given last-send instant. -/
def globalSpaced (rate : Nat) : Nat → List (Nat × Bool) → Prop
  | _, [] => True
  | last, (t, _) :: rest => last + rate ≤ t ∧ globalSpaced rate t rest

/-- Consecutive fader-lane sends are at least `rate` apart; general-lane
sends do not reset the fader clock. -/
def faderSpaced (rate : Nat) : Nat → List (Nat × Bool) → Prop
  | _, [] => True
  | lastF, (t, isFader) :: rest =>
    if isFader then lastF + rate ≤ t ∧ faderSpaced rate t rest
    else faderSpaced rate lastF rest

theorem tick_none_eq (s : SchedState) (t : Nat) (s' : SchedState)
    (h : tick s t = (s', none)) : s' = s := by
  unfold tick tickGeneral at h
  rcases hfq : s.faderLevelQueue with _ | ⟨fc, frest⟩ <;>
    rcases hcq : s.commandQueue with _ | ⟨gc, grest⟩ <;>
      simp only [hfq, hcq] at h <;> split_ifs at h <;> simp_all

theorem tick_some_spec (s : SchedState) (t : Nat) (lane : Bool)
    (c : QueuedCmd) (s' : SchedState) (hg : 0 < s.globalCommandRateMs)
    (h : tick s t = (s', some (lane, c))) :
    s.lastCommandSent + s.globalCommandRateMs ≤ t ∧
    s'.lastCommandSent = t ∧
    s'.globalCommandRateMs = s.globalCommandRateMs ∧
    s'.faderLevelRateMs = s.faderLevelRateMs ∧
    (lane = true →
      s.lastFaderLevelSent + s.faderLevelRateMs + 1 ≤ t ∧
      s'.lastFaderLevelSent = t) ∧
    (lane = false → s'.lastFaderLevelSent = s.lastFaderLevelSent) := by
  unfold tick tickGeneral at h
  by_cases h1 : t - s.lastCommandSent < s.globalCommandRateMs
  · rw [if_pos h1] at h
    simp at h
  · rw [if_neg h1] at h
    by_cases h2 : s.faderLevelRateMs < t - s.lastFaderLevelSent
    · rw [if_pos h2] at h
      rcases hfq : s.faderLevelQueue with _ | ⟨fc, frest⟩
      · rw [hfq] at h
        rcases hcq : s.commandQueue with _ | ⟨gc, grest⟩
        · rw [hcq] at h; simp at h
        · rw [hcq] at h
          simp only [Prod.mk.injEq, Option.some.injEq] at h
          obtain ⟨hs', hlane, hc⟩ := h
          subst hs'
          subst hlane
          refine ⟨by omega, by simp, by simp, by simp, by simp, ?_⟩
          intro _
          simp
      · rw [hfq] at h
        simp only [Prod.mk.injEq, Option.some.injEq] at h
        obtain ⟨hs', hlane, hc⟩ := h
        subst hs'
        subst hlane
        refine ⟨by omega, by simp, by simp, by simp, ?_, by simp⟩
        intro _
        exact ⟨by omega, by simp⟩
    · rw [if_neg h2] at h
      rcases hcq : s.commandQueue with _ | ⟨gc, grest⟩
      · rw [hcq] at h; simp at h
      · rw [hcq] at h
        simp only [Prod.mk.injEq, Option.some.injEq] at h
        obtain ⟨hs', hlane, hc⟩ := h
        subst hs'
        subst hlane
        refine ⟨by omega, by simp, by simp, by simp, by simp, ?_⟩
        intro _
        simp

/-- **C4.** Scheduler minimum spacing: for every initial scheduler state
with a positive global rate and every sequence of invocation times, no two
consecutive sends (from either lane) are closer than `globalCommandRateMs`,
and no two consecutive fader-lane sends are closer than `faderLevelRateMs`. -/
theorem c4_scheduler_spacing (s : SchedState) (ts : List Nat)
    (hg : 0 < s.globalCommandRateMs) :
    globalSpaced s.globalCommandRateMs s.lastCommandSent (run s ts) ∧
    faderSpaced s.faderLevelRateMs s.lastFaderLevelSent (run s ts) := by
  induction ts generalizing s with
  | nil => exact ⟨trivial, trivial⟩
  | cons t rest ih =>
    cases htick : tick s t with
    | mk s0 osend =>
      cases osend with
      | none =>
        have hs : s0 = s := tick_none_eq s t s0 htick
        simp only [run, htick]
        rw [hs]
        exact ih s hg
      | some lc =>
        obtain ⟨lane, c⟩ := lc
        obtain ⟨hgap, hlast, hrg, hrf, hfader, hgen⟩ :=
          tick_some_spec s t lane c s0 hg htick
        have ih' := ih s0 (by rw [hrg]; exact hg)
        simp only [run, htick]
        constructor
        · refine ⟨hgap, ?_⟩
          have hx := ih'.1
          rw [hrg, hlast] at hx
          exact hx
        · cases lane with
          | true =>
            obtain ⟨hfgap, hflast⟩ := hfader rfl
            simp only [faderSpaced, if_pos]
            refine ⟨by omega, ?_⟩
            have hx := ih'.2
            rw [hrf, hflast] at hx
            exact hx
          | false =>
            simp only [faderSpaced, Bool.false_eq_true, if_false]
            have hx := ih'.2
            rw [hrf, hgen rfl] at hx
            exact hx

/-- Concrete scheduler state for the `c4_scheduler_spacing` witness. -/
def c4s0 : SchedState where
  commandQueue := [(READ_CONSOLE_INFO, [])]
  faderLevelQueue := [(WRITE_FADER_LEVEL, [0, 1, 0, 100])]
  lastCommandSent := 0
  lastFaderLevelSent := 0
  globalCommandRateMs := 10
  faderLevelRateMs := 100

/-- Witness for `c4_scheduler_spacing` on `c4s0` with three invocations. -/
theorem c4_scheduler_spacing_witness :
    0 < c4s0.globalCommandRateMs ∧
    (globalSpaced c4s0.globalCommandRateMs c4s0.lastCommandSent
        (run c4s0 [150, 155, 170]) ∧
      faderSpaced c4s0.faderLevelRateMs c4s0.lastFaderLevelSent
        (run c4s0 [150, 155, 170])) :=
  ⟨by decide, c4_scheduler_spacing c4s0 [150, 155, 170] (by decide)⟩

/-! ## Response decoding (`parseResponseData`, `src/client.ts`,
lines 424–643)

JavaScript values that `parseResponseData` can return are modelled as a sum
type.  `hexToString` exists only in the distributed build (its source file
is not part of `src/`), and its exact behavior is irrelevant to the claims,
so the decoder is parameterized by an arbitrary total function `hts` from
the decoded bytes to a string (modelling
`hexToString(bytes.toString("hex"))`). -/

inductive JSValue where
  | b (v : Bool)
  | n (v : Nat)
  | s (v : String)
  | boolArray (v : List Bool)
  | consoleInfo (protocolVersion maxFaders maxMains : Nat) (deskLabel : String)
  | faderAssignment (faderId type width calrecId : Nat)
  | stereoImage (leftToBoth rightToBoth : Bool)
  | buf (v : List Nat)
  deriving DecidableEq, Repr

/-- `data[i] === v` in JS: an absent index is `undefined`, which is strictly
equal to no number. -/
def byteEq (data : List Nat) (i v : Nat) : Bool :=
  match data.get? i with
  | some b => b == v
  | none => false

/-- `!!data[i]` in JS: an absent index is falsy, a present byte is truthy
iff nonzero. -/
def byteTruthy (data : List Nat) (i : Nat) : Bool :=
  match data.get? i with
  | some b => !(b == 0)
  | none => false

/-- `parseResponseData` from `src/client.ts`: dispatch on
`readCmd = command & 0x7fff`, falling through to a dispatch on
`writeCommand = command | 0x8000` (commands are u16), with `Buffer` fallback
for everything else.  `maxFaders`/`maxMains` are the configured counts
(`getEffectiveMaxFaderCount` / `getEffectiveMaxMainCount`). -/
def parseResponseData (hts : List Nat → String) (maxFaders maxMains : Nat)
    (command : Nat) (data : List Nat) : JSValue :=
  let readCmd := command % 32768
  let writeCommand := command % 32768 + 32768
  if readCmd = READ_CONSOLE_NAME then
    let name := hts data
    .s (if name = "" then "Unknown" else name)
  else if readCmd = READ_FADER_LABEL ∨ readCmd = READ_MAIN_FADER_LABEL then
    .s (hts (data.drop 2))
  else if readCmd = READ_CONSOLE_INFO then
    if data.length < 20 then .consoleInfo 1 maxFaders maxMains "Unknown"
    else
      let deskLabel := hts ((data.drop 12).take 8)
      .consoleInfo (readUInt16BE data 0) (readUInt16BE data 2)
        (readUInt16BE data 4)
        (if deskLabel = "" then "Unknown" else deskLabel)
  else if readCmd = READ_FADER_LEVEL then .n (readUInt16BE data 2)
  else if readCmd = READ_FADER_ASSIGNMENT then
    if data.length < 6 then .faderAssignment 0 0 0 0
    else .faderAssignment (readUInt16BE data 0) (data.getD 2 0)
      (data.getD 3 0) (readUInt16BE data 4)
  else if readCmd = READ_STEREO_IMAGE then
    if 4 ≤ data.length then
      .stereoImage (byteTruthy data 2) (byteTruthy data 3)
    else .stereoImage false false
  else if readCmd = READ_FADER_CUT then .b (byteEq data 2 0)
  else if readCmd = READ_FADER_PFL then .b (byteEq data 2 1)
  else if readCmd = READ_MAIN_PFL then .b (byteEq data 2 1)
  else if readCmd = READ_AVAILABLE_AUX then
    .boolArray ((List.range 32).map fun i =>
      if i < data.length then Nat.testBit (data.getD i 0) 0 else false)
  else if readCmd = READ_AVAILABLE_MAINS then
    .boolArray ((List.range 16).map fun i =>
      if i < data.length then Nat.testBit (data.getD i 0) 0 else false)
  else if readCmd = READ_AUX_SEND_ROUTING then
    .boolArray ((List.range maxFaders).map fun i =>
      if i / 8 < min data.length ((maxFaders + 7) / 8) then
        Nat.testBit (data.getD (i / 8) 0) (i % 8)
      else false)
  else if writeCommand = WRITE_FADER_LEVEL ∨
      writeCommand = WRITE_AUX_OUTPUT_LEVEL then .n (readUInt16BE data 2)
  else if writeCommand = WRITE_FADER_CUT then .b (byteEq data 2 0)
  else if writeCommand = WRITE_FADER_PFL ∨ writeCommand = WRITE_MAIN_PFL then
    .b (byteEq data 2 1)
  else .buf data

/-- JS strict equality `result === m` between a decoded response value and a
number: only a numeric value can compare equal. -/
def jsStrictEqNum (v : JSValue) (m : Nat) : Bool :=
  match v with
  | .n k => k == m
  | _ => false

/-- `getFaderCut` (`src/client.ts`, lines 1229–1235): `return result === 0`. -/
def getFaderCutResult (v : JSValue) : Bool := jsStrictEqNum v 0

/-- `getFaderPfl` (`src/client.ts`, lines 1242–1248): `return result === 1`. -/
def getFaderPflResult (v : JSValue) : Bool := jsStrictEqNum v 1

/-- `getMainPfl` (`src/client.ts`, lines 1255–1261): `return result === 1`. -/
def getMainPflResult (v : JSValue) : Bool := jsStrictEqNum v 1

/-- **C6.** For every reply payload (and any label decoding and configured
counts), the public boolean getters resolve to `false`: `parseResponseData`
already returns a boolean for READ_FADER_CUT / READ_FADER_PFL /
READ_MAIN_PFL, and the getter then compares that boolean strictly against
the number 0 or 1, which is false for every boolean. -/
theorem c6_boolean_getters_false (hts : List Nat → String)
    (maxFaders maxMains : Nat) (data : List Nat) :
    getFaderCutResult
      (parseResponseData hts maxFaders maxMains READ_FADER_CUT data) = false ∧
    getFaderPflResult
      (parseResponseData hts maxFaders maxMains READ_FADER_PFL data) = false ∧
    getMainPflResult
      (parseResponseData hts maxFaders maxMains READ_MAIN_PFL data) = false := by
  refine ⟨?_, ?_, ?_⟩ <;>
    simp [parseResponseData, getFaderCutResult, getFaderPflResult,
      getMainPflResult, jsStrictEqNum, READ_FADER_CUT, READ_FADER_PFL,
      READ_MAIN_PFL, READ_CONSOLE_NAME, READ_FADER_LABEL,
      READ_MAIN_FADER_LABEL, READ_CONSOLE_INFO, READ_FADER_LEVEL,
      READ_FADER_ASSIGNMENT, READ_STEREO_IMAGE]

/-! ## Protocol-version gating (C7)

`isCommandSupported` and the version command sets exist in a superseded
`protocol.ts` revision bundled in the repository; the current
`src/client.ts` `sendCommand` never consults them. -/

def WRITE_AVAILABLE_AUX : Nat := 0x8010
def WRITE_FADER_ASSIGNMENT : Nat := 0x8011
def WRITE_AVAILABLE_MAINS : Nat := 0x8014
def PROTOCOL_VERSION_20 : Nat := 20
def PROTOCOL_VERSION_21 : Nat := 21

/-- `VERSION_20_COMMANDS` from the superseded `protocol.ts` revision. -/
def VERSION_20_COMMANDS : List Nat :=
  [READ_AVAILABLE_AUX, READ_FADER_ASSIGNMENT, READ_AUX_SEND_ROUTING,
   WRITE_AUX_SEND_ROUTING, READ_AUX_OUTPUT_LEVEL, WRITE_AUX_OUTPUT_LEVEL,
   WRITE_AVAILABLE_AUX, WRITE_FADER_ASSIGNMENT]

/-- `VERSION_21_COMMANDS` from the superseded `protocol.ts` revision. -/
def VERSION_21_COMMANDS : List Nat :=
  [READ_AVAILABLE_MAINS, WRITE_ROUTE_TO_MAIN, READ_STEREO_IMAGE,
   WRITE_STEREO_IMAGE, WRITE_AVAILABLE_MAINS]

/-- `isCommandSupported` from the superseded `protocol.ts` revision. -/
def isCommandSupported (command protocolVersion : Nat) : Bool :=
  if command ∈ VERSION_21_COMMANDS then
    decide (PROTOCOL_VERSION_21 ≤ protocolVersion)
  else if command ∈ VERSION_20_COMMANDS then
    decide (PROTOCOL_VERSION_20 ≤ protocolVersion)
  else true

inductive SendOutcome where
  | rejectedNotConnected
  | rejectedNoSocket
  | enqueued (isFaderLevel : Bool) (registeredKey : Option Key)
  deriving DecidableEq, Repr

/-- The synchronous decision logic of `sendCommand` (`src/client.ts`,
lines 895–960): reject when not connected, reject without a socket,
otherwise push onto the chosen lane and, for a read command
(`(command & 0x8000) === 0`), register the request key.  The current client
consults neither the cached console info nor the negotiated protocol
version at any point on this path. -/
def sendCommandModel (connectionState : ConnectionState) (socketOpen : Bool)
    (consoleInfo : Option ConsoleInfoR) (command : Nat) (data : List Nat)
    (isFaderLevel : Bool) : SendOutcome :=
  if connectionState ≠ .connected then .rejectedNotConnected
  else if !socketOpen then .rejectedNoSocket
  else .enqueued isFaderLevel
    (if command % 65536 < 32768 then some (mkSendKey command data) else none)

/-- Scheduler state holding a queued version-21 command, for the C7
counterexample. -/
def c7sched : SchedState where
  commandQueue := [(WRITE_STEREO_IMAGE, [0, 1, 1, 0])]
  faderLevelQueue := []
  lastCommandSent := 0
  lastFaderLevelSent := 0
  globalCommandRateMs := 10
  faderLevelRateMs := 100

/-- **C7 (counterexample).** With negotiated protocol version 1,
`WRITE_STEREO_IMAGE` (version-21 family, unsupported per
`isCommandSupported`) is nevertheless accepted by `sendCommand` onto the
general lane — no ProtocolError, no rejection — and the scheduler then
writes it to the socket. -/
theorem c7_version_gating_counterexample :
    isCommandSupported WRITE_STEREO_IMAGE 1 = false ∧
    sendCommandModel .connected true
        (some ⟨1, 42, 3, "MCS"⟩) WRITE_STEREO_IMAGE [0, 1, 1, 0] false =
      .enqueued false none ∧
    (tick c7sched 100).2 = some (false, (WRITE_STEREO_IMAGE, [0, 1, 1, 0])) := by
  refine ⟨by decide, by decide, by decide⟩

/-- **C7 (amended).** The current client performs no protocol-version
gating: `sendCommand`'s outcome is independent of the cached console info
(hence of the negotiated version), and when connected with a socket it
enqueues every command — version-20 and version-21 families included —
rather than failing fast with a ProtocolError.  (Only the superseded client
revision consulted `isCommandSupported`, rejecting with a plain `Error` and
only once console info was known.) -/
theorem c7_no_version_gating (cs : ConnectionState) (so : Bool)
    (info info' : Option ConsoleInfoR) (command : Nat) (data : List Nat)
    (isFaderLevel : Bool) :
    sendCommandModel cs so info command data isFaderLevel =
      sendCommandModel cs so info' command data isFaderLevel ∧
    sendCommandModel .connected true info command data isFaderLevel =
      .enqueued isFaderLevel
        (if command % 65536 < 32768 then some (mkSendKey command data)
         else none) := by
  exact ⟨rfl, by simp [sendCommandModel]⟩

/-! ## Connect sequence and readiness (C8) -/

inductive ConnectAction where
  | setStateConnected
  | emitConnect
  | startQueueProcessing
  | attachDataHandler
  | attachCloseHandler
  | attachErrorHandler
  | emitReady
  | scheduleConsoleInfoRequest (delayMs : Nat)
  deriving DecidableEq, Repr

/-- The straight-line sequence of actions `connect()` performs after the
socket opens (`src/client.ts`, lines 201–235), in program order: set state
CONNECTED, emit `connect`, start queue processing, install the data/close/
error handlers, emit `ready` ("immediately since we don't need console
info"), then schedule the lone READ_CONSOLE_INFO request on a 50 ms timer
(whose failure is caught and only logged). -/
def connectActionsAfterOpen : List ConnectAction :=
  [.setStateConnected, .emitConnect, .startQueueProcessing,
   .attachDataHandler, .attachCloseHandler, .attachErrorHandler,
   .emitReady, .scheduleConsoleInfoRequest 50]

/-- Whether a connect action issues (schedules) the console-info request. -/
def isInfoRequest (a : ConnectAction) : Bool :=
  match a with
  | .scheduleConsoleInfoRequest _ => true
  | _ => false

/-- **C8 (counterexample).** `ready` is emitted before the console-info
request is even scheduled (and no console-name request exists in `connect()`
at all), so the ready event precedes the initialization handshake instead
of following its completion. -/
theorem c8_ready_counterexample :
    ConnectAction.emitReady ∈ connectActionsAfterOpen ∧
    connectActionsAfterOpen.indexOf ConnectAction.emitReady <
      connectActionsAfterOpen.indexOf
        (ConnectAction.scheduleConsoleInfoRequest 50) := by
  constructor <;> decide

/-- **C8 (amended).** After the socket opens the client emits `ready`
immediately, right after installing the socket handlers and before any
initialization traffic: no action preceding `emitReady` requests console
info (or console name), and the lone console-info request is scheduled only
afterwards, on a 50 ms timer. -/
theorem c8_ready_amended :
    connectActionsAfterOpen.indexOf ConnectAction.emitReady = 6 ∧
    connectActionsAfterOpen.indexOf
      (ConnectAction.scheduleConsoleInfoRequest 50) = 7 ∧
    (connectActionsAfterOpen.take 6).all
      (fun a => !(isInfoRequest a)) = true := by
  refine ⟨by decide, by decide, by decide⟩

/-! ## Stream reassembly (`handleData`, `src/client.ts`, lines 273–384) -/

inductive RxItem where
  | parsedMessage (command : Nat) (data : List Nat)
  | parseError (e : ParseErr)
  | nakHandled
  deriving DecidableEq, Repr

/-- The `while` loop of `handleData`: find SOH (discarding preceding noise),
wait for at least 4 bytes, read `byteCount` at offset 1, wait until
`byteCount + 4` bytes are buffered, then slice the frame out, strip its SOH,
parse it and continue on the remainder.  Each iteration consumes at least
four bytes, so `buffer.length + 1` fuel always suffices. -/
def processPackets : Nat → List Nat → List Nat × List RxItem
  | 0, buf => (buf, [])
  | fuel + 1, buf =>
    if buf = [] then (buf, [])
    else
      match buf.findIdx? (fun byte => byte == SOH) with
      | none => (buf, [])
      | some sohIndex =>
        let b := buf.drop sohIndex
        if b.length < 4 then (b, [])
        else
          let byteCount := b.getD 1 0
          let messageLength := byteCount + 4
          if b.length < messageLength then (b, [])
          else
            let packet := b.take messageLength
            let rest := b.drop messageLength
            let item :=
              match parsePacket (packet.drop 1) with
              | .err e => RxItem.parseError e
              | .ok c d => RxItem.parsedMessage c d
            let next := processPackets fuel rest
            (next.1, item :: next.2)

/-- `handleData`: append the chunk to the buffer; if the buffer now starts
with the ACK sentinel, consume one byte and return — no event, and no
further processing of the remaining bytes in this invocation; if it starts
with NAK, consume it (with its reason byte when present, rejecting the
oldest pending request — outside this model) and likewise return; otherwise
run the frame-extraction loop. -/
def handleData (buffer chunk : List Nat) : List Nat × List RxItem :=
  let b := buffer ++ chunk
  if b.head? = some ACK then (b.drop 1, [])
  else if b.head? = some NAK then
    if 2 ≤ b.length then (b.drop 2, [.nakHandled])
    else (b.drop 1, [.nakHandled])
  else processPackets (b.length + 1) b

/-- A well-formed console-to-controller frame (SOH, byteCount, controller
device id, command, payload, checksum). -/
def incomingFrame (command : Nat) (data : List Nat) : List Nat :=
  SOH :: withControllerDevice ((buildPacket command data).drop 1)

/-- **C10 (counterexample).** A chunk consisting of an ACK byte immediately
followed by a complete READ_CONSOLE_INFO frame: `handleData` consumes only
the ACK and returns, leaving the frame buffered and dispatching nothing —
even though the very same frame-extraction loop would have parsed and
dispatched it, as the second conjunct shows. -/
theorem c10_ack_counterexample :
    handleData [] (ACK :: incomingFrame READ_CONSOLE_INFO []) =
      (incomingFrame READ_CONSOLE_INFO [], []) ∧
    processPackets ((incomingFrame READ_CONSOLE_INFO []).length + 1)
        (incomingFrame READ_CONSOLE_INFO []) =
      ([], [.parsedMessage READ_CONSOLE_INFO []]) := by
  constructor <;> decide

/-- **C10 (amended).** An ACK sentinel at the head of the buffer is consumed
(one byte, no event emitted), but `handleData` then returns immediately
instead of continuing over the remaining buffered bytes: whatever follows
the ACK — even a complete frame — stays in the buffer until the next chunk
arrives. -/
theorem c10_ack_amended (buffer chunk : List Nat)
    (h : (buffer ++ chunk).head? = some ACK) :
    handleData buffer chunk = ((buffer ++ chunk).drop 1, []) := by
  simp only [handleData]
  rw [if_pos h]

/-- Witness for `c10_ack_amended` on the chunk `[ACK, 7]`. -/
theorem c10_ack_amended_witness :
    (([] ++ [ACK, 7] : List Nat).head? = some ACK) ∧
    handleData [] [ACK, 7] = (([] ++ [ACK, 7] : List Nat).drop 1, []) :=
  ⟨by decide, c10_ack_amended [] [ACK, 7] (by decide)⟩

end Cscp
